import Mathlib

/-!
Verification development for the OpenClaw Activity Monitor
(`src/index.js`, `src/lib.js`).

The core of the program is the failure-tracking / auto-recovery state
machine in `runHealthCheck`: per-agent consecutive-failure counters, a
threshold-and-cooldown gate deciding restarts, snapshot persistence
(`saveState` / `loadState`), the status report (`getStatus`) and the
duration formatter (`formatUptime`).  Timestamps are modelled as `Int`
milliseconds since the epoch (the source stores ISO strings and compares
via `Date.getTime()`).  External subprocess calls (`checkGateway`,
`startGateway`, `checkAgentHealth`, `restartAgent`) are modelled as an
oracle supplying their boolean outcomes.
-/

namespace Monitor

/-- Configuration options from `CONFIG` in `src/lib.js` that the
health-check state machine reads (`maxFailures`, `restartCooldown`). -/
structure Config where
  maxFailures : Nat
  restartCooldown : Int
  deriving Repr, DecidableEq

/-- The shipped configuration: `maxFailures: 3`, `restartCooldown: 10000`. -/
def CONFIG : Config := { maxFailures := 3, restartCooldown := 10000 }

/-- Per-agent record created by `initAgentState` in `src/index.js`
(lines 63-76). -/
structure AgentState where
  name : String
  consecutiveFailures : Nat
  lastHealthy : Option Int
  lastCheck : Option Int
  totalChecks : Nat
  totalFailures : Nat
  lastRestart : Option Int
  deriving Repr, DecidableEq

/-- `initAgentState` (src/index.js lines 63-76): the fresh record inserted
the first time an agent name is seen. -/
def initAgentState (name : String) : AgentState :=
  { name := name
    consecutiveFailures := 0
    lastHealthy := none
    lastCheck := none
    totalChecks := 0
    totalFailures := 0
    lastRestart := none }

/-- The cooldown gate from src/index.js lines 126-130:
`timeSinceLastRestart = lastRestart ? now - lastRestart : Infinity` and the
test `timeSinceLastRestart > CONFIG.restartCooldown` (an absent
`lastRestart` behaves as infinite elapsed time, so the gate passes). -/
def restartAllowed (cfg : Config) (lastRestart : Option Int) (now : Int) : Bool :=
  match lastRestart with
  | none => true
  | some t => decide (cfg.restartCooldown < now - t)

/-- One agent's state transition for one health check, from
src/index.js lines 109-141: increment `totalChecks`, set `lastCheck`;
on a healthy result reset `consecutiveFailures` and stamp `lastHealthy`;
on an unhealthy result increment `consecutiveFailures` and
`totalFailures`, and when the count reaches `maxFailures` and the
cooldown gate passes, issue a restart (returned flag), stamp
`lastRestart := now` and reset `consecutiveFailures` to 0.
The returned `Bool` is whether a restart was issued. -/
def recordResult (cfg : Config) (s : AgentState) (healthy : Bool) (now : Int) :
    AgentState × Bool :=
  let s1 : AgentState := { s with totalChecks := s.totalChecks + 1, lastCheck := some now }
  if healthy then
    ({ s1 with consecutiveFailures := 0, lastHealthy := some now }, false)
  else
    let s2 : AgentState := { s1 with
      consecutiveFailures := s1.consecutiveFailures + 1
      totalFailures := s1.totalFailures + 1 }
    if cfg.maxFailures ≤ s2.consecutiveFailures then
      if restartAllowed cfg s2.lastRestart now then
        ({ s2 with lastRestart := some now, consecutiveFailures := 0 }, true)
      else
        (s2, false)
    else
      (s2, false)

/-- The consecutive-failure count immediately after recording a result,
before any restart-triggered reset: 0 on a healthy result (line 115),
the incremented counter on an unhealthy one (line 118). -/
def recordedFailures (s : AgentState) (healthy : Bool) : Nat :=
  if healthy then 0 else s.consecutiveFailures + 1

/-- Run a sequence of health checks for one agent through `recordResult`.
Each trace entry is `(healthy, now)`; the result is the final state and,
in order, the restart-issued flag of every check. -/
def runTrace (cfg : Config) (s : AgentState) : List (Bool × Int) → AgentState × List Bool
  | [] => (s, [])
  | (healthy, now) :: rest =>
    let step := recordResult cfg s healthy now
    let out := runTrace cfg step.1 rest
    (out.1, step.2 :: out.2)

/-- Modelled from the spec: "`consecutive_failures` is always the count of
strictly consecutive unhealthy results since the last healthy result or the
last restart, whichever is more recent."  Each step is
`(healthy, restartIssued)`; a healthy result or an issued restart resets the
count to 0, any other (unhealthy) step adds one; `init` is the count before
the first step. -/
def specConsecutive (init : Nat) : List (Bool × Bool) → Nat
  | [] => init
  | (healthy, restarted) :: rest =>
    specConsecutive (if healthy || restarted then 0 else init + 1) rest

/-- External calls a health-check cycle makes, in program order. -/
inductive Event where
  | gatewayCheck : Event
  | gatewayStart : Event
  | probeAgent (name : String) : Event
  | restartCall (name : String) (result : Bool) : Event
  | restartRecorded (name : String) : Event
  deriving Repr, DecidableEq

/-- One agent's full check (src/index.js lines 108-141): the state
transition of `recordResult` plus the ordered external calls it makes:
the `checkAgentHealth` probe (line 112), then — only when a restart is
issued — the `restartAgent` call (line 133) followed by the state update
that stamps `lastRestart` and resets the counter (lines 134-135).
`restartResult` is the value `restartAgent` returned; the source reads it
only to choose a log line (line 136), never in the state update. -/
def checkAgent (cfg : Config) (name : String) (s : AgentState) (healthy : Bool)
    (now : Int) (restartResult : Bool) : AgentState × Bool × List Event :=
  let step := recordResult cfg s healthy now
  (step.1, step.2,
    Event.probeAgent name ::
      (if step.2 then [Event.restartCall name restartResult, Event.restartRecorded name]
       else []))

/-- Outcomes of the external subprocess calls, supplied as an oracle:
`checkGateway`, `startGateway`, `checkAgentHealth agent`, `restartAgent agent`. -/
structure Oracle where
  gatewayHealthy : Bool
  startGatewayResult : Bool
  agentHealth : String → Bool
  restartResult : String → Bool

/-- Process-wide state from `state` in src/index.js (the fields the
health-check machine and the snapshot read; performance/repo/activity
sampling is out of scope).  `agents` is the insertion-ordered map. -/
structure MonitorState where
  startTime : Int
  totalChecks : Nat
  totalRestarts : Nat
  lastCheck : Option Int
  agents : List (String × AgentState)
  deriving Repr, DecidableEq

/-- Lookup with on-demand creation, as `initAgentState` does for
`state.agents` (a missing name maps to the fresh record). -/
def lookupAgent (l : List (String × AgentState)) (name : String) : AgentState :=
  match l.find? (fun p => p.1 == name) with
  | some p => p.2
  | none => initAgentState name

/-- Lookup on the process-wide state's agent map. -/
def getAgent (st : MonitorState) (name : String) : AgentState :=
  lookupAgent st.agents name

/-- `Map.set` semantics on the insertion-ordered agent map: replace the
entry if the name is present, append it otherwise. -/
def setAgent : List (String × AgentState) → String → AgentState → List (String × AgentState)
  | [], name, a => [(name, a)]
  | p :: rest, name, a =>
    if p.1 == name then (name, a) :: rest else p :: setAgent rest name a

/-- The gateway phase of a cycle (src/index.js lines 98-105): check the
gateway; when it is down, attempt one start.  Whatever the outcome, the
source only logs and falls through — no state changes, no skipping. -/
def gatewayPhase (o : Oracle) : List Event :=
  if o.gatewayHealthy then [Event.gatewayCheck]
  else [Event.gatewayCheck, Event.gatewayStart]

/-- The agent loop of a cycle (src/index.js lines 107-142): for each
configured agent in order, probe it and apply `checkAgent`; an issued
restart also increments the process-wide `totalRestarts` (line 132). -/
def processAgents (cfg : Config) (o : Oracle) (names : List String)
    (st : MonitorState) (now : Int) : MonitorState × List Event :=
  match names with
  | [] => (st, [])
  | n :: rest =>
    let a := getAgent st n
    let out := checkAgent cfg n a (o.agentHealth n) now (o.restartResult n)
    let st1 : MonitorState := { st with
      agents := setAgent st.agents n out.1
      totalRestarts := st.totalRestarts + (if out.2.1 then 1 else 0) }
    let tail := processAgents cfg o rest st1 now
    (tail.1, out.2.2 ++ tail.2)

/-- One health-check cycle, `runHealthCheck` (src/index.js lines 79-158)
restricted to the gateway/agent machine: bump the cycle counter and
`lastCheck`, run the gateway phase, then — unconditionally — the agent
loop.  Returns the new state and the external calls in order. -/
def runHealthCheck (cfg : Config) (o : Oracle) (agentNames : List String)
    (st : MonitorState) (now : Int) : MonitorState × List Event :=
  let st0 : MonitorState := { st with totalChecks := st.totalChecks + 1, lastCheck := some now }
  let gevs := gatewayPhase o
  let out := processAgents cfg o agentNames st0 now
  (out.1, gevs ++ out.2)

/-- The scheduler from `main` (src/index.js line 308):
`setInterval(runHealthCheck, CONFIG.healthCheckInterval)` invokes the
cycle unconditionally on every tick.  There is no in-progress guard, so a
tick that arrives while `cyclesInFlight` cycles are still running starts
one more concurrent cycle; no warning is recorded (second component). -/
def schedulerTick (cyclesInFlight : Nat) : Nat × Bool :=
  (cyclesInFlight + 1, false)

/-- Rendering of an optional millisecond timestamp for the snapshot. -/
def renderOptInt : Option Int → String
  | none => "null"
  | some t => toString t

/-- Rendering of one agent record, mirroring the fields `saveState`
serializes for each entry of `state.agents` (src/index.js line 166). -/
def renderAgent (s : AgentState) : String :=
  "\x7b\"name\":\"" ++ s.name ++
    "\",\"consecutiveFailures\":" ++ toString s.consecutiveFailures ++
    ",\"lastHealthy\":" ++ renderOptInt s.lastHealthy ++
    ",\"lastCheck\":" ++ renderOptInt s.lastCheck ++
    ",\"totalChecks\":" ++ toString s.totalChecks ++
    ",\"totalFailures\":" ++ toString s.totalFailures ++
    ",\"lastRestart\":" ++ renderOptInt s.lastRestart ++ "\x7d"

/-- The serialized snapshot `JSON.stringify(stateData, ...)` built by
`saveState` (src/index.js lines 161-175): a pure function of the
in-memory state — the source reads no clock and no other input while
building `stateData`. -/
def serializeState (st : MonitorState) : String :=
  "\x7b\"startTime\":" ++ toString st.startTime ++
    ",\"totalChecks\":" ++ toString st.totalChecks ++
    ",\"totalRestarts\":" ++ toString st.totalRestarts ++
    ",\"lastCheck\":" ++ renderOptInt st.lastCheck ++
    ",\"agents\":[" ++ String.intercalate "," (st.agents.map (fun p => renderAgent p.2)) ++
    "]\x7d"

/-- `saveState` (src/index.js lines 160-177): serialize the state and
attempt the file write; the empty catch swallows a failed write, so the
call always returns normally with the in-memory state untouched.
`writeFile` is the filesystem outcome; the returned `String` is the
serialized snapshot that was handed to the write. -/
def saveState (writeFile : String → Except String Unit) (st : MonitorState) :
    MonitorState × String :=
  let bytes := serializeState st
  match writeFile bytes with
  | Except.ok _ => (st, bytes)
  | Except.error _ => (st, bytes)

/-- The summary `loadState` logs from a previous snapshot
(src/index.js lines 183-186). -/
structure PrevRunSummary where
  totalChecks : Nat
  totalRestarts : Nat
  deriving Repr, DecidableEq

/-- `loadState` (src/index.js lines 179-188): read the snapshot file and
parse it; the empty catch turns a failed read or a failed parse into
"no prior state" (`none`) instead of an error.  `readFile` and `parse`
are the filesystem and `JSON.parse` outcomes. -/
def loadState (readFile : Except String String)
    (parse : String → Except String PrevRunSummary) : Option PrevRunSummary :=
  match readFile with
  | Except.error _ => none
  | Except.ok data =>
    match parse data with
    | Except.error _ => none
    | Except.ok saved => some saved

/-- One agent's entry in the report of `getStatus`
(src/index.js lines 194-203). -/
structure AgentStatus where
  healthy : Bool
  lastHealthy : Option Int
  consecutiveFailures : Nat
  totalChecks : Nat
  totalFailures : Nat
  lastRestart : Option Int
  deriving Repr, DecidableEq

/-- The per-agent mapping of `getStatus`: `healthy` is
`consecutiveFailures === 0` (src/index.js line 196). -/
def agentStatusOf (s : AgentState) : AgentStatus :=
  { healthy := s.consecutiveFailures == 0
    lastHealthy := s.lastHealthy
    consecutiveFailures := s.consecutiveFailures
    totalChecks := s.totalChecks
    totalFailures := s.totalFailures
    lastRestart := s.lastRestart }

/-- The `agents` object of the `getStatus` report (src/index.js
lines 192-203). -/
def getStatusAgents (st : MonitorState) : List (String × AgentStatus) :=
  st.agents.map (fun p => (p.1, agentStatusOf p.2))

/-- `formatUptime` (src/lib.js lines 50-57): day/hour/minute breakdown of
a duration in seconds, with the days component only when at least one
whole day. -/
def formatUptime (seconds : Nat) : String :=
  let days := seconds / 86400
  let hours := (seconds % 86400) / 3600
  let mins := (seconds % 3600) / 60
  if days > 0 then
    toString days ++ "d " ++ toString hours ++ "h " ++ toString mins ++ "m"
  else if hours > 0 then
    toString hours ++ "h " ++ toString mins ++ "m"
  else
    toString mins ++ "m"

/-- Whether the days component appears in a formatted duration: the only
source of the character `d` in `formatUptime`'s output. -/
def hasDayComponent (s : String) : Bool :=
  s.data.contains 'd'

/-- The initial process-wide state from src/index.js lines 27-42
(the fields in scope here; `startTime` is the process start time). -/
def initMonitorState (startTime : Int) : MonitorState :=
  { startTime := startTime
    totalChecks := 0
    totalRestarts := 0
    lastCheck := none
    agents := [] }

/-- A cycle's environment in which the gateway is unreachable and the
start attempt fails too, while every agent probe reports healthy. -/
def oracleGatewayDown : Oracle :=
  { gatewayHealthy := false
    startGatewayResult := false
    agentHealth := fun _ => true
    restartResult := fun _ => true }

/-! ## Helper lemmas about the per-agent transition -/

theorem recordResult_healthy_not_issued (cfg : Config) (s : AgentState) (now : Int) :
    (recordResult cfg s true now).2 = false := rfl

theorem recordResult_issued_eq (cfg : Config) (s : AgentState) (now : Int) :
    (recordResult cfg s false now).2
      = (decide (cfg.maxFailures ≤ s.consecutiveFailures + 1)
          && restartAllowed cfg s.lastRestart now) := by
  simp only [recordResult]
  by_cases h1 : cfg.maxFailures ≤ s.consecutiveFailures + 1
  · by_cases h2 : restartAllowed cfg s.lastRestart now = true
    · simp [h1, h2]
    · simp [h1, h2]
  · simp [h1]

theorem restartAllowed_iff (cfg : Config) (lr : Option Int) (now : Int) :
    restartAllowed cfg lr now = true ↔
      (lr = none ∨ ∃ t, lr = some t ∧ cfg.restartCooldown < now - t) := by
  cases lr <;> simp [restartAllowed]

theorem recordResult_totalChecks (cfg : Config) (s : AgentState) (healthy : Bool) (now : Int) :
    (recordResult cfg s healthy now).1.totalChecks = s.totalChecks + 1 := by
  cases healthy with
  | true => rfl
  | false =>
    simp only [recordResult]
    by_cases h1 : cfg.maxFailures ≤ s.consecutiveFailures + 1
    · by_cases h2 : restartAllowed cfg s.lastRestart now = true
      · simp [h1, h2]
      · simp [h1, h2]
    · simp [h1]

theorem recordResult_cf (cfg : Config) (s : AgentState) (healthy : Bool) (now : Int) :
    (recordResult cfg s healthy now).1.consecutiveFailures
      = if healthy || (recordResult cfg s healthy now).2 then 0
        else s.consecutiveFailures + 1 := by
  cases healthy with
  | true => rfl
  | false =>
    rw [recordResult_issued_eq]
    simp only [recordResult]
    by_cases h1 : cfg.maxFailures ≤ s.consecutiveFailures + 1
    · by_cases h2 : restartAllowed cfg s.lastRestart now = true
      · simp [h1, h2]
      · simp [h1, h2]
    · simp [h1]

theorem recordResult_tf (cfg : Config) (s : AgentState) (healthy : Bool) (now : Int) :
    (recordResult cfg s healthy now).1.totalFailures
      = s.totalFailures + (if healthy then 0 else 1) := by
  cases healthy with
  | true => rfl
  | false =>
    simp only [recordResult]
    by_cases h1 : cfg.maxFailures ≤ s.consecutiveFailures + 1
    · by_cases h2 : restartAllowed cfg s.lastRestart now = true
      · simp [h1, h2]
      · simp [h1, h2]
    · simp [h1]

theorem recordResult_restart_state (cfg : Config) (s : AgentState) (healthy : Bool)
    (now : Int) (h : (recordResult cfg s healthy now).2 = true) :
    (recordResult cfg s healthy now).1.consecutiveFailures = 0
      ∧ (recordResult cfg s healthy now).1.lastRestart = some now := by
  cases healthy with
  | true => exact absurd h (by simp [recordResult_healthy_not_issued])
  | false =>
    rw [recordResult_issued_eq] at h
    simp only [Bool.and_eq_true, decide_eq_true_eq] at h
    simp only [recordResult]
    simp [h.1, h.2]

/-! ## Helper lemmas about traces -/

theorem runTrace_flags_length (cfg : Config) (s : AgentState) (trace : List (Bool × Int)) :
    (runTrace cfg s trace).2.length = trace.length := by
  induction trace generalizing s with
  | nil => rfl
  | cons e rest ih =>
    obtain ⟨healthy, now⟩ := e
    simp only [runTrace, List.length_cons]
    rw [ih]

theorem runTrace_cf_spec (cfg : Config) (s : AgentState) (trace : List (Bool × Int)) :
    (runTrace cfg s trace).1.consecutiveFailures
      = specConsecutive s.consecutiveFailures
          ((trace.map Prod.fst).zip (runTrace cfg s trace).2) := by
  induction trace generalizing s with
  | nil => rfl
  | cons e rest ih =>
    obtain ⟨healthy, now⟩ := e
    simp only [runTrace, List.map_cons, List.zip_cons_cons, specConsecutive]
    rw [ih (recordResult cfg s healthy now).1, recordResult_cf]
    rfl

theorem runTrace_cf_le_tf (cfg : Config) (s : AgentState) (trace : List (Bool × Int))
    (h : s.consecutiveFailures ≤ s.totalFailures) :
    (runTrace cfg s trace).1.consecutiveFailures
      ≤ (runTrace cfg s trace).1.totalFailures := by
  induction trace generalizing s with
  | nil => exact h
  | cons e rest ih =>
    obtain ⟨healthy, now⟩ := e
    simp only [runTrace]
    refine ih (recordResult cfg s healthy now).1 ?_
    rw [recordResult_cf, recordResult_tf]
    cases healthy with
    | true => simp
    | false =>
      cases hr : (recordResult cfg s false now).2 with
      | true => simp [hr]
      | false => simp [hr]; omega

theorem runTrace_append_state (cfg : Config) (s : AgentState)
    (a b : List (Bool × Int)) :
    (runTrace cfg s (a ++ b)).1 = (runTrace cfg (runTrace cfg s a).1 b).1 := by
  induction a generalizing s with
  | nil => rfl
  | cons e rest ih =>
    obtain ⟨healthy, now⟩ := e
    simp only [List.cons_append, runTrace]
    exact ih (recordResult cfg s healthy now).1

theorem specConsecutive_all_false (init : Nat) (steps : List (Bool × Bool))
    (h : ∀ p ∈ steps, p.1 = false ∧ p.2 = false) :
    specConsecutive init steps = init + steps.length := by
  induction steps generalizing init with
  | nil => simp [specConsecutive]
  | cons p rest ih =>
    obtain ⟨h1, h2⟩ := h p (List.mem_cons_self p rest)
    simp only [specConsecutive, h1, h2, Bool.or_false, Bool.false_eq_true, if_false,
      List.length_cons]
    rw [ih (init + 1) (fun q hq => h q (List.mem_cons_of_mem p hq))]
    omega

/-! ## Claim theorems -/

/-- C1: for every agent and every health check, a restart fires exactly
when, after recording the result, the consecutive-failure count is at
least `maxFailures` and either no restart was ever issued for the agent
or the time since its last restart strictly exceeds `restartCooldown`
(the shipped `CONFIG` has `maxFailures = 3 > 0`). -/
theorem restart_fires_iff_threshold_and_cooldown (cfg : Config) (s : AgentState)
    (healthy : Bool) (now : Int) (hmf : 0 < cfg.maxFailures) :
    (recordResult cfg s healthy now).2 = true ↔
      (cfg.maxFailures ≤ recordedFailures s healthy ∧
        (s.lastRestart = none ∨
          ∃ t, s.lastRestart = some t ∧ cfg.restartCooldown < now - t)) := by
  cases healthy with
  | true =>
    rw [recordResult_healthy_not_issued]
    simp only [Bool.false_eq_true, false_iff]
    rintro ⟨hle, -⟩
    simp [recordedFailures] at hle
    omega
  | false =>
    rw [recordResult_issued_eq]
    simp only [Bool.and_eq_true, decide_eq_true_eq, restartAllowed_iff, recordedFailures]
    simp

/-- C1 witness: with the shipped configuration, an agent at two prior
consecutive failures and no prior restart gets a restart on its third
consecutive unhealthy result. -/
theorem restart_fires_iff_threshold_and_cooldown_witness :
    (recordResult CONFIG
        { initAgentState "main" with consecutiveFailures := 2 } false 0).2 = true :=
  (restart_fires_iff_threshold_and_cooldown CONFIG
      { initAgentState "main" with consecutiveFailures := 2 } false 0
      (by decide)).mpr ⟨by decide, Or.inl rfl⟩

/-- C2: whenever a restart is issued for an agent, then — for either
outcome of the restart attempt — `consecutive_failures` is reset to 0 and
`last_restart_at` is stamped with the current time; the resulting state
does not depend on the attempt's outcome, and in the cycle's ordered
external calls the state update (`restartRecorded`) comes only after the
restart invocation (`restartCall`) has returned. -/
theorem restart_issued_resets_counter (cfg : Config) (name : String) (s : AgentState)
    (healthy : Bool) (now : Int)
    (hIssued : (recordResult cfg s healthy now).2 = true) :
    ∀ r : Bool,
      (checkAgent cfg name s healthy now r).1.consecutiveFailures = 0
        ∧ (checkAgent cfg name s healthy now r).1.lastRestart = some now
        ∧ (checkAgent cfg name s healthy now r).1
            = (checkAgent cfg name s healthy now (!r)).1
        ∧ (checkAgent cfg name s healthy now r).2.2
            = [Event.probeAgent name, Event.restartCall name r,
               Event.restartRecorded name] := by
  intro r
  obtain ⟨hcf, hlr⟩ := recordResult_restart_state cfg s healthy now hIssued
  refine ⟨hcf, hlr, rfl, ?_⟩
  simp [checkAgent, hIssued]

/-- C2 witness: shipped configuration, an agent with two prior failures
and no prior restart, third unhealthy check at time 0, failed restart
attempt (`r = false`). -/
theorem restart_issued_resets_counter_witness :
    (checkAgent CONFIG "main"
        { initAgentState "main" with consecutiveFailures := 2 } false 0 false).1.consecutiveFailures = 0
      ∧ (checkAgent CONFIG "main"
          { initAgentState "main" with consecutiveFailures := 2 } false 0 false).1.lastRestart = some 0 := by
  obtain ⟨h1, h2, -, -⟩ := restart_issued_resets_counter CONFIG "main"
    { initAgentState "main" with consecutiveFailures := 2 } false 0 (by decide) false
  exact ⟨h1, h2⟩

/-- C3: over every sequence of recorded health results,
`consecutive_failures` equals the count of strictly consecutive unhealthy
results since the most recent healthy result or restart (whichever is
later); after N consecutive unhealthy results with no restart issued it
equals N; a trace ending in a healthy result ends with the counter at 0;
and the counter never exceeds `total_failures`. -/
theorem consecutive_failures_invariant (cfg : Config) (name : String)
    (trace : List (Bool × Int)) :
    ((runTrace cfg (initAgentState name) trace).1.consecutiveFailures
        = specConsecutive 0
            ((trace.map Prod.fst).zip (runTrace cfg (initAgentState name) trace).2))
      ∧ ((runTrace cfg (initAgentState name) trace).1.consecutiveFailures
          ≤ (runTrace cfg (initAgentState name) trace).1.totalFailures)
      ∧ ((∀ e ∈ trace, e.1 = false) →
          (∀ f ∈ (runTrace cfg (initAgentState name) trace).2, f = false) →
          (runTrace cfg (initAgentState name) trace).1.consecutiveFailures = trace.length)
      ∧ (∀ pre t, trace = pre ++ [(true, t)] →
          (runTrace cfg (initAgentState name) trace).1.consecutiveFailures = 0) := by
  refine ⟨runTrace_cf_spec cfg (initAgentState name) trace,
    runTrace_cf_le_tf cfg (initAgentState name) trace (Nat.le_refl 0), ?_, ?_⟩
  · intro hunh hflags
    rw [runTrace_cf_spec]
    have hlen : ((trace.map Prod.fst).zip (runTrace cfg (initAgentState name) trace).2).length
        = trace.length := by
      rw [List.length_zip, List.length_map, runTrace_flags_length, Nat.min_self]
    rw [show (initAgentState name).consecutiveFailures = 0 from rfl]
    rw [specConsecutive_all_false 0 _ ?_, hlen, Nat.zero_add]
    intro p hp
    obtain ⟨hp1, hp2⟩ := List.of_mem_zip hp
    constructor
    · obtain ⟨e, he, hfst⟩ := List.mem_map.mp hp1
      exact hfst ▸ hunh e he
    · exact hflags p.2 hp2
  · intro pre t htr
    subst htr
    rw [runTrace_append_state]
    rw [show (runTrace cfg (runTrace cfg (initAgentState name) pre).1 [(true, t)]).1
        = (recordResult cfg (runTrace cfg (initAgentState name) pre).1 true t).1 from rfl]
    rw [recordResult_cf]
    simp

/-- C3 witness: shipped configuration, two consecutive unhealthy checks
from the fresh state leave the counter at 2. -/
theorem consecutive_failures_invariant_witness :
    (runTrace CONFIG (initAgentState "main") [(false, 0), (false, 30000)]).1.consecutiveFailures = 2 := by
  have h := (consecutive_failures_invariant CONFIG "main" [(false, 0), (false, 30000)]).2.2.1
  exact h (by decide) (by decide)

/-- C5: with `maxFailures = 3` and `restartCooldown = 10000`, an agent
unhealthy on four consecutive checks spaced 2000 ms apart gets a restart
on the third check only; no second restart on the fourth, whose recorded
failure is kept, leaving `consecutive_failures = 1`. -/
theorem cooldown_scenario :
    (runTrace CONFIG (initAgentState "main")
        [(false, 0), (false, 2000), (false, 4000), (false, 6000)]).2
        = [false, false, true, false]
      ∧ (runTrace CONFIG (initAgentState "main")
          [(false, 0), (false, 2000), (false, 4000), (false, 6000)]).1.consecutiveFailures = 1
      ∧ (runTrace CONFIG (initAgentState "main")
          [(false, 0), (false, 2000), (false, 4000), (false, 6000)]).1.lastRestart = some 4000 := by
  decide

/-- C6: the scheduler in `main` installs `runHealthCheck` as a bare
`setInterval` callback with no in-progress guard, so a tick arriving
while one cycle is still in flight starts a second concurrent cycle and
records no warning — the claimed "drop the tick and warn" behavior is
absent from the code. -/
theorem scheduler_tick_no_overlap_guard :
    schedulerTick 1 = (2, false) ∧ (schedulerTick 1).1 ≠ 1 := by
  decide

theorem saveState_eq (writeFile : String → Except String Unit) (st : MonitorState) :
    saveState writeFile st = (st, serializeState st) := by
  simp only [saveState]
  cases writeFile (serializeState st) <;> rfl

/-- C7: snapshot persistence never surfaces an error and never touches
health state: `saveState` returns normally with the in-memory state
unchanged for every filesystem outcome (a failed write is swallowed), and
`loadState` yields "no prior state" (`none`) when the snapshot file is
missing/unreadable or fails to parse. -/
theorem persistence_never_fails :
    (∀ (writeFile : String → Except String Unit) (st : MonitorState),
        saveState writeFile st = (st, serializeState st))
      ∧ (∀ (msg : String) (parse : String → Except String PrevRunSummary),
          loadState (Except.error msg) parse = none)
      ∧ (∀ (data msg : String) (parse : String → Except String PrevRunSummary),
          parse data = Except.error msg → loadState (Except.ok data) parse = none) := by
  refine ⟨saveState_eq, ?_, ?_⟩
  · intro msg parse
    rfl
  · intro data msg parse hparse
    simp [loadState, hparse]

/-- C7 witness: a failing write and a failing parse at a concrete state. -/
theorem persistence_never_fails_witness :
    saveState (fun _ => Except.error "disk full") (initMonitorState 0)
        = (initMonitorState 0, serializeState (initMonitorState 0))
      ∧ loadState (Except.ok "not json") (fun _ => Except.error "bad") = none := by
  refine ⟨persistence_never_fails.1 (fun _ => Except.error "disk full") (initMonitorState 0),
    persistence_never_fails.2.2 "not json" "bad" (fun _ => Except.error "bad") rfl⟩

/-- C8: calling the snapshot save twice in a row with the state unchanged
in between produces byte-identical persisted output (the serialization
reads nothing but the state — no timestamp is embedded at save time, so
the outputs agree in full). -/
theorem saveState_idempotent_bytes (writeFile : String → Except String Unit)
    (st : MonitorState) :
    (saveState writeFile (saveState writeFile st).1).2 = (saveState writeFile st).2 := by
  rw [saveState_eq, saveState_eq]

/-- C10: in the `getStatus` report every agent is healthy exactly when
its `consecutiveFailures` counter is 0, and an agent whose check just
issued a restart (counter reset) is reported healthy even though the
probe result that triggered it was unhealthy. -/
theorem status_healthy_iff_no_consecutive_failures :
    (∀ s : AgentState, ((agentStatusOf s).healthy = true ↔ s.consecutiveFailures = 0))
      ∧ (∀ (st : MonitorState) (name : String) (a : AgentStatus),
          (name, a) ∈ getStatusAgents st → (a.healthy = true ↔ a.consecutiveFailures = 0))
      ∧ (∀ (cfg : Config) (s : AgentState) (now : Int),
          (recordResult cfg s false now).2 = true →
          (agentStatusOf (recordResult cfg s false now).1).healthy = true) := by
  refine ⟨?_, ?_, ?_⟩
  · intro s
    simp [agentStatusOf]
  · intro st name a hmem
    obtain ⟨p, hp, heq⟩ := List.mem_map.mp hmem
    obtain ⟨-, ha⟩ := Prod.mk.injEq .. ▸ heq
    subst ha
    simp [agentStatusOf]
  · intro cfg s now hIssued
    have hcf := (recordResult_restart_state cfg s false now hIssued).1
    simp [agentStatusOf, hcf]

/-- C10 witness: a fresh agent two failures deep gets its restart on the
third unhealthy check and is then reported healthy. -/
theorem status_healthy_iff_no_consecutive_failures_witness :
    (agentStatusOf (recordResult CONFIG
        { initAgentState "main" with consecutiveFailures := 2 } false 0).1).healthy = true :=
  status_healthy_iff_no_consecutive_failures.2.2 CONFIG
    { initAgentState "main" with consecutiveFailures := 2 } 0 (by decide)

/-! ## formatUptime lemmas -/

theorem digits_no_day_char (n : Nat) (h : n < 60) : 'd' ∉ (toString n).data := by
  revert n
  decide

theorem mem_data_append (a b : String) (c : Char) :
    c ∈ (a ++ b).data ↔ c ∈ a.data ∨ c ∈ b.data := by
  rw [String.data_append]
  exact List.mem_append

theorem char_contains_iff (l : List Char) (c : Char) : l.contains c = true ↔ c ∈ l := by
  simp [List.contains]

/-- C9: `formatUptime` maps 3661 s to "1h 1m", 0 s to "0m", 90000 s to
"1d 1h 0m", and its output carries a days component (the character `d`)
exactly when the duration is at least one day (86400 s). -/
theorem formatUptime_spec :
    formatUptime 3661 = "1h 1m"
      ∧ formatUptime 0 = "0m"
      ∧ formatUptime 90000 = "1d 1h 0m"
      ∧ (∀ s : Nat, hasDayComponent (formatUptime s) = true ↔ 86400 ≤ s) := by
  refine ⟨by decide, by decide, by decide, ?_⟩
  intro s
  by_cases hday : 86400 ≤ s
  · have hd : s / 86400 > 0 := by omega
    simp only [formatUptime, if_pos hd, hasDayComponent]
    rw [char_contains_iff]
    constructor
    · intro _; exact hday
    · intro _
      simp only [mem_data_append]
      have hb : 'd' ∈ "d ".data := by decide
      tauto
  · have hd : ¬ s / 86400 > 0 := by omega
    have hhours : (s % 86400) / 3600 < 60 := by omega
    have hmins : (s % 3600) / 60 < 60 := by omega
    simp only [formatUptime, if_neg hd, hasDayComponent]
    constructor
    · intro hcont
      rw [char_contains_iff] at hcont
      exfalso
      by_cases hh : (s % 86400) / 3600 > 0
      · rw [if_pos hh] at hcont
        simp only [mem_data_append] at hcont
        rcases hcont with (((h1 | h2) | h3) | h4)
        · exact digits_no_day_char _ hhours h1
        · exact absurd h2 (by decide)
        · exact digits_no_day_char _ hmins h3
        · exact absurd h4 (by decide)
      · rw [if_neg hh] at hcont
        simp only [mem_data_append] at hcont
        rcases hcont with h1 | h2
        · exact digits_no_day_char _ hmins h1
        · exact absurd h2 (by decide)
    · intro h
      exact absurd h hday

/-! ## Cycle-level lemmas -/

theorem lookupAgent_setAgent_same (l : List (String × AgentState)) (name : String)
    (a : AgentState) : lookupAgent (setAgent l name a) name = a := by
  induction l with
  | nil => simp [setAgent, lookupAgent, List.find?]
  | cons p rest ih =>
    by_cases h : p.1 == name
    · simp [setAgent, h, lookupAgent, List.find?]
    · simp only [setAgent, h, if_false, Bool.false_eq_true]
      simpa [lookupAgent, List.find?, h] using ih

theorem lookupAgent_setAgent_ne (l : List (String × AgentState)) (m n : String)
    (a : AgentState) (h : m ≠ n) :
    lookupAgent (setAgent l m a) n = lookupAgent l n := by
  induction l with
  | nil =>
    simp [setAgent, lookupAgent, List.find?, (by simpa using h : (m == n) = false)]
  | cons p rest ih =>
    by_cases hp : p.1 == m
    · have hpm : p.1 = m := by simpa using hp
      have hpn : (p.1 == n) = false := by simp [hpm, h]
      simp [setAgent, hp, lookupAgent, List.find?, (by simpa using h : (m == n) = false), hpn]
    · by_cases hn : p.1 == n
      · simp [setAgent, hp, lookupAgent, List.find?, hn]
      · simp only [setAgent, hp, if_false, Bool.false_eq_true]
        simpa [lookupAgent, List.find?, hp, hn] using ih

theorem processAgents_totalChecks (cfg : Config) (o : Oracle) (names : List String)
    (st : MonitorState) (now : Int) (n : String) :
    (getAgent (processAgents cfg o names st now).1 n).totalChecks
      = (getAgent st n).totalChecks + names.count n := by
  induction names generalizing st with
  | nil => simp [processAgents, List.count_nil]
  | cons m rest ih =>
    simp only [processAgents]
    rw [ih]
    by_cases h : m = n
    · subst h
      have hset : getAgent { st with
          agents := setAgent st.agents m
            (checkAgent cfg m (getAgent st m) (o.agentHealth m) now (o.restartResult m)).1
          totalRestarts := st.totalRestarts +
            (if (checkAgent cfg m (getAgent st m) (o.agentHealth m) now (o.restartResult m)).2.1
             then 1 else 0) } m
          = (checkAgent cfg m (getAgent st m) (o.agentHealth m) now (o.restartResult m)).1 := by
        simp only [getAgent]
        exact lookupAgent_setAgent_same st.agents m _
      rw [hset]
      have hrec : (checkAgent cfg m (getAgent st m) (o.agentHealth m) now
          (o.restartResult m)).1.totalChecks = (getAgent st m).totalChecks + 1 :=
        recordResult_totalChecks cfg (getAgent st m) (o.agentHealth m) now
      rw [hrec]
      simp [List.count_cons]
      omega
    · have hset : getAgent { st with
          agents := setAgent st.agents m
            (checkAgent cfg m (getAgent st m) (o.agentHealth m) now (o.restartResult m)).1
          totalRestarts := st.totalRestarts +
            (if (checkAgent cfg m (getAgent st m) (o.agentHealth m) now (o.restartResult m)).2.1
             then 1 else 0) } n
          = getAgent st n := by
        simp only [getAgent]
        exact lookupAgent_setAgent_ne st.agents m n _ h
      rw [hset]
      simp [List.count_cons, h]

theorem processAgents_gateway_independent (cfg : Config) (o : Oracle)
    (names : List String) (st : MonitorState) (now : Int) (g r : Bool) :
    processAgents cfg { o with gatewayHealthy := g, startGatewayResult := r } names st now
      = processAgents cfg o names st now := by
  induction names generalizing st with
  | nil => rfl
  | cons m rest ih =>
    simp only [processAgents]
    rw [ih]

theorem processAgents_probe_mem (cfg : Config) (o : Oracle) (names : List String)
    (st : MonitorState) (now : Int) (n : String) (h : n ∈ names) :
    Event.probeAgent n ∈ (processAgents cfg o names st now).2 := by
  revert h
  induction names generalizing st with
  | nil => intro h; exact absurd h (List.not_mem_nil n)
  | cons m rest ih =>
    intro h
    simp only [processAgents, checkAgent]
    rcases List.mem_cons.mp h with h1 | h2
    · subst h1
      exact List.mem_append_left _ (List.mem_cons_self _ _)
    · exact List.mem_append_right _ (ih _ h2)

/-- C4 counterexample: with the shipped configuration, one configured
agent "main", the gateway unreachable and the start attempt failing, the
cycle still probes the agent and its `totalChecks` rises from 0 to 1 —
the claimed "no agent probe and unchanged per-agent state" does not hold
on the code. -/
theorem gateway_down_still_probes_counterexample :
    Event.probeAgent "main" ∈
        (runHealthCheck CONFIG oracleGatewayDown ["main"] (initMonitorState 0) 1000).2
      ∧ (getAgent (runHealthCheck CONFIG oracleGatewayDown ["main"]
            (initMonitorState 0) 1000).1 "main").totalChecks = 1
      ∧ (getAgent (initMonitorState 0) "main").totalChecks = 0 := by
  decide

/-- C4 amended: a cycle never skips agent probes — the per-agent outcome
of a cycle is identical whatever the gateway probe and start attempt
returned, every configured agent is probed in every cycle, and each
agent's `totalChecks` grows by its multiplicity in the configured list. -/
theorem gateway_down_cycle_amended (cfg : Config) (o : Oracle) (names : List String)
    (st : MonitorState) (now : Int) (g r : Bool) :
    ((runHealthCheck cfg { o with gatewayHealthy := g, startGatewayResult := r }
          names st now).1
        = (runHealthCheck cfg o names st now).1)
      ∧ (∀ n, n ∈ names →
          Event.probeAgent n ∈ (runHealthCheck cfg o names st now).2)
      ∧ (∀ n, (getAgent (runHealthCheck cfg o names st now).1 n).totalChecks
            = (getAgent st n).totalChecks + names.count n) := by
  refine ⟨?_, ?_, ?_⟩
  · simp only [runHealthCheck]
    rw [processAgents_gateway_independent]
  · intro n hn
    simp only [runHealthCheck]
    exact List.mem_append_right _ (processAgents_probe_mem cfg o names _ now n hn)
  · intro n
    simp only [runHealthCheck]
    rw [processAgents_totalChecks]
    rfl

/-- C4 amended witness: shipped configuration, agent list `["main"]`,
gateway down and start failing: the probe of "main" occurs in the cycle. -/
theorem gateway_down_cycle_amended_witness :
    Event.probeAgent "main" ∈
      (runHealthCheck CONFIG oracleGatewayDown ["main"] (initMonitorState 0) 1000).2 :=
  (gateway_down_cycle_amended CONFIG oracleGatewayDown ["main"]
      (initMonitorState 0) 1000 false false).2.1 "main" (List.mem_cons_self _ _)

end Monitor
